import Mathlib

/-!
Shallow embedding of the event-study engine in `quant/event_study.py`
(class `EventStudy`), covering: estimation-window selection and the OLS
hand-off (`estimate_expected_return`), abnormal-return computation and the
event-day AR fallback (`calculate_ar`), cumulative abnormal return
(`calculate_car`), the robust/standard significance test
(`statistical_test`), MAD-based outlier detection (`filter_outliers`),
the result assembly with rounding and the generated text summary
(`run_full_analysis`, `_generate_summary`).

Modelling conventions:
* Trading dates are day ordinals in `ℤ`; money/return values are `ℚ`.
* External numeric libraries are parameters: `ols` stands for the
  `statsmodels` OLS fit (it receives exactly the sample the code hands it),
  `tcdf` for `scipy.stats.t.cdf`, `ttest1samp` for `scipy.stats.ttest_1samp`,
  and `sqrtN` for `np.sqrt(len(ar_values))`.
* Exceptions are `Except String`; the Python `try`/`except` in
  `run_full_analysis` corresponds to matching on the `Except`.
* Python's `round(x, n)` (round-half-to-even) is `pyRound`.
-/

/-- One aligned observation after `fetch_data`: a trading date together with
the instrument return and the market return on that date. -/
structure Row where
  date : ℤ
  stockRet : ℚ
  marketRet : ℚ
deriving DecidableEq, Repr

/-- `config.SIGNIFICANCE_LEVEL` from `config.py` (`0.05`). -/
def SIGNIFICANCE_LEVEL : ℚ := 5 / 100

/-- `np.median`: sort, take the middle element for odd length and the mean of
the two middle elements for even length. -/
def median (xs : List ℚ) : ℚ :=
  let s := xs.insertionSort (· ≤ ·)
  let n := xs.length
  if n % 2 = 1 then s.getD (n / 2) 0
  else (s.getD (n / 2 - 1) 0 + s.getD (n / 2) 0) / 2

/-- Median absolute deviation from the median, as computed inline in
`statistical_test` and `filter_outliers`:
`np.median(np.abs(ar_values - np.median(ar_values)))`. -/
def madOf (xs : List ℚ) : ℚ :=
  median (xs.map fun x => |x - median xs|)

/-- Arithmetic mean, `pd.Series.mean` (only used on non-empty series). -/
def listMean (xs : List ℚ) : ℚ := xs.sum / xs.length

/-- Round a rational to the nearest integer, ties to even — the rounding mode
of Python's built-in `round`. -/
def roundHalfEven (x : ℚ) : ℤ :=
  let f : ℤ := ⌊x⌋
  let r : ℚ := x - f
  if r < 1 / 2 then f
  else if 1 / 2 < r then f + 1
  else if f % 2 = 0 then f else f + 1

/-- Python's `round(x, nd)` on exact rationals: round-half-to-even at the
`nd`-th decimal place. -/
def pyRound (nd : ℕ) (x : ℚ) : ℚ :=
  (roundHalfEven (x * 10 ^ nd) : ℚ) / 10 ^ nd

/-- The estimation sample selected by `estimate_expected_return`: rows with
date strictly before `event_date - event_window_days`, then the Python slice
`iloc[-N:]` of those when there are more than `N` of them. Python's `-0` is
`0`, so `iloc[-0:]` keeps every row: the slice only truncates when `N` is
positive, in which case it keeps the last `N`. -/
def estimationSample (rows : List Row) (e : ℤ) (w N : ℕ) : List Row :=
  let filtered := rows.filter fun r => decide (r.date < e - (w : ℤ))
  if N < filtered.length then
    if N = 0 then filtered else filtered.drop (filtered.length - N)
  else filtered

/-- `estimate_expected_return`: hand the selected estimation sample to the
OLS fit (`sm.OLS(...).fit()`, a parameter here) and return `(alpha, beta)`;
any exception raised by the fit propagates as `Except.error`. -/
def estimate_expected_return (ols : List Row → Except String (ℚ × ℚ))
    (rows : List Row) (e : ℤ) (w N : ℕ) : Except String (ℚ × ℚ) :=
  ols (estimationSample rows e w N)

/-- The event-window restriction in `calculate_ar`: rows with date in
`[event_date - event_window_days, event_date + event_window_days]`. -/
def eventWindowRows (rows : List Row) (e : ℤ) (w : ℕ) : List Row :=
  rows.filter fun r => decide (e - (w : ℤ) ≤ r.date) && decide (r.date ≤ e + (w : ℤ))

/-- The abnormal-return series of `calculate_ar`:
`AR_t = stock_return_t - (alpha + beta * market_return_t)` on every event-window
date, indexed by date. -/
def arSeries (a b : ℚ) (rows : List Row) (e : ℤ) (w : ℕ) : List (ℤ × ℚ) :=
  (eventWindowRows rows e w).map fun r => (r.date, r.stockRet - (a + b * r.marketRet))

/-- The loop in `calculate_ar` that walks the series in order and picks the AR
of the first date on or after the event date, if any. -/
def eventDayARfirst (e : ℤ) : List (ℤ × ℚ) → Option ℚ
  | [] => none
  | p :: rest => if e ≤ p.1 then some p.2 else eventDayARfirst e rest

/-- The value stored in `self.ar` by `calculate_ar`: the first on-or-after
event-date AR when one exists, otherwise the mean of the whole series. -/
def storedAR (e : ℤ) (s : List (ℤ × ℚ)) : ℚ :=
  (eventDayARfirst e s).getD (listMean (s.map Prod.snd))

/-- `calculate_car`: with no window, the sum of the whole AR series; with a
`(days_before, days_after)` window, the sum restricted to dates in
`[event_date - days_before, event_date + days_after]`. -/
def calculate_car (e : ℤ) (s : List (ℤ × ℚ)) (window : Option (ℕ × ℕ)) : ℚ :=
  match window with
  | some (b, a) =>
      ((s.filter fun p => decide (e - (b : ℤ) ≤ p.1) && decide (p.1 ≤ e + (a : ℤ))).map Prod.snd).sum
  | none => (s.map Prod.snd).sum

/-- The dictionary returned by `statistical_test`. The `method` key is only
present on the robust path (the standard path returns before adding it). -/
structure TestResult where
  t_statistic : ℚ
  p_value : ℚ
  is_significant : Bool
  confidence : ℚ
  method : Option String
deriving DecidableEq, Repr

/-- `statistical_test`. Robust mode: `t = median / (1.4826 * MAD / sqrt n)`
when `MAD > 0` and `t = 0` otherwise, with a two-sided p-value
`2 * (1 - tcdf(|t|, n - 1))`; standard mode: `scipy.stats.ttest_1samp`
(a parameter). Both share `is_significant = p < config.SIGNIFICANCE_LEVEL` and
`confidence = min(1 - p if p < 1 else 0, 0.99)`; the empty series returns the
degenerate `(0, 1, false, 0)` up front. -/
def statistical_test (tcdf : ℚ → ℕ → ℚ) (ttest1samp : List ℚ → ℚ × ℚ)
    (sqrtN : ℚ) (arValues : List ℚ) (useRobust : Bool) : TestResult :=
  if arValues.length = 0 then
    { t_statistic := 0, p_value := 1, is_significant := false, confidence := 0,
      method := none }
  else if useRobust then
    let median_ar := median arValues
    let mad := median (arValues.map fun x => |x - median_ar|)
    let t_stat := if 0 < mad then median_ar / (14826 / 10000 * mad / sqrtN) else 0
    let df := arValues.length - 1
    let p_val := 2 * (1 - tcdf |t_stat| df)
    { t_statistic := t_stat, p_value := p_val,
      is_significant := decide (p_val < SIGNIFICANCE_LEVEL),
      confidence := min (if p_val < 1 then 1 - p_val else 0) (99 / 100),
      method := some "robust" }
  else
    let tp := ttest1samp arValues
    { t_statistic := tp.1, p_value := tp.2,
      is_significant := decide (tp.2 < SIGNIFICANCE_LEVEL),
      confidence := min (if tp.2 < 1 then 1 - tp.2 else 0) (99 / 100),
      method := none }

/-- `filter_outliers`: not an outlier with fewer than 3 observations, or when
MAD is zero, or when `self.ar` was never set; otherwise an outlier exactly when
`|self.ar - median| > threshold * MAD`. -/
def filter_outliers (s : List (ℤ × ℚ)) (arStored : Option ℚ) (threshold : ℚ) : Bool :=
  if s.length < 3 then false
  else
    let vals := s.map Prod.snd
    let median_ar := median vals
    let mad := median (vals.map fun x => |x - median_ar|)
    if mad = 0 then false
    else
      match arStored with
      | none => false
      | some ar => decide (threshold * mad < |ar - median_ar|)

/-- Python's `str.capitalize` restricted to what `_generate_summary` needs:
upper-case the first character. -/
def capitalizeStr (s : String) : String :=
  match s.data with
  | [] => s
  | c :: rest => ⟨c.toUpper :: rest⟩

/-- Fixed-point decimal formatting `"{:.nd f}"` on exact rationals: the
rounded value printed with exactly `nd` digits after the point. -/
def fmtFixed (nd : ℕ) (x : ℚ) : String :=
  let n := roundHalfEven (x * 10 ^ nd)
  let sign := if n < 0 then "-" else ""
  let m := n.natAbs
  let ip := m / 10 ^ nd
  let fp := m % 10 ^ nd
  let fpStr := toString fp
  sign ++ toString ip ++ "." ++ String.mk (List.replicate (nd - fpStr.length) '0') ++ fpStr

/-- `_generate_summary`: "Insufficient data" without an AR; otherwise a
sentence whose leading word classifies the AR as `Positive` only when it is
strictly positive (everything else, zero included, reads `Negative`), followed
by the significance sentence and an optional outlier warning. -/
def generate_summary (arStored : Option ℚ) (pValue : Option ℚ) (isOutlier : Bool) : String :=
  match arStored with
  | none => "Insufficient data for analysis"
  | some ar =>
    let direction := if 0 < ar then "positive" else "negative"
    let magnitude := |ar * 100|
    let s1 := capitalizeStr direction ++ " abnormal return of " ++ fmtFixed 2 magnitude ++ "%. "
    let s2 := s1 ++
      (match pValue with
       | some p =>
           if p < SIGNIFICANCE_LEVEL then
             "Statistically significant (p=" ++ fmtFixed 4 p ++ "). "
           else "Not statistically significant. "
       | none => "Not statistically significant. ")
    if isOutlier then s2 ++ "⚠️ Flagged as potential outlier." else s2

/-- The success record assembled by `run_full_analysis` (the keys the claims
are about; the two timestamp echoes are omitted). -/
structure SuccessFields where
  ticker : String
  alpha : ℚ
  beta : ℚ
  ar : ℚ
  ar_percentage : ℚ
  car : ℚ
  car_percentage : ℚ
  t_statistic : ℚ
  p_value : ℚ
  is_significant : Bool
  confidence : ℚ
  is_outlier : Bool
  num_observations : ℕ
  direction : String
  summary : String
deriving DecidableEq, Repr

/-- A `run_full_analysis` return value: either the error dictionary (carrying
`error`, `ar`, `car`, `confidence`, `is_significant`) or the success record. -/
inductive ResultDict where
  | err (ticker msg : String) (ar car confidence : ℚ) (is_significant : Bool)
  | ok (fields : SuccessFields)
deriving DecidableEq, Repr

/-- The error dictionary `run_full_analysis` builds on every failure path:
the failure reason plus `ar = 0.0`, `car = 0.0`, `confidence = 0.0`,
`is_significant = False`. -/
def errResult (ticker msg : String) : ResultDict :=
  ResultDict.err ticker msg 0 0 0 false

/-- `run_full_analysis`. `fetched` is the outcome of `fetch_data`
(`none` = returned `False`, exceptions included, since `fetch_data` catches its
own). The pipeline then mirrors the source: estimate (an OLS exception is
caught by the surrounding `try`), abnormal returns, the empty-window check,
CAR, the robust significance test, outlier detection, and the rounded result
record. -/
def run_full_analysis (ticker : String) (fetched : Option (List Row))
    (ols : List Row → Except String (ℚ × ℚ))
    (tcdf : ℚ → ℕ → ℚ) (ttest1samp : List ℚ → ℚ × ℚ) (sqrtN : ℚ)
    (e : ℤ) (w N : ℕ) : ResultDict :=
  match fetched with
  | none => errResult ticker "Failed to fetch data"
  | some rows =>
    match estimate_expected_return ols rows e w N with
    | Except.error msg => errResult ticker ("Analysis failed: " ++ msg)
    | Except.ok (a, b) =>
      let s := arSeries a b rows e w
      if s.length = 0 then errResult ticker "No data in event window"
      else
        let ar := storedAR e s
        let car := calculate_car e s none
        let test := statistical_test tcdf ttest1samp sqrtN (s.map Prod.snd) true
        let isOutlier := filter_outliers s (some ar) 3
        ResultDict.ok
          { ticker := ticker
            alpha := pyRound 6 a
            beta := pyRound 4 b
            ar := pyRound 6 ar
            ar_percentage := pyRound 4 (ar * 100)
            car := pyRound 6 car
            car_percentage := pyRound 4 (car * 100)
            t_statistic := test.t_statistic
            p_value := test.p_value
            is_significant := test.is_significant
            confidence := pyRound 3 test.confidence
            is_outlier := isOutlier
            num_observations := s.length
            direction := if 0 < ar then "positive" else if ar < 0 then "negative" else "neutral"
            summary := generate_summary (some ar) (some test.p_value) isOutlier }

/-- Projection used to state facts about the `p_value` key of a result. -/
def ResultDict.pvalue : ResultDict → Option ℚ
  | ResultDict.err _ _ _ _ _ _ => none
  | ResultDict.ok f => some f.p_value

/-! ### Supporting lemmas -/

theorem confidence_clamp (p : ℚ) :
    min (if p < 1 then 1 - p else 0) (99 / 100) =
      (if p < 1 then min (1 - p) (99 / 100) else 0) ∧
    0 ≤ min (if p < 1 then 1 - p else 0) (99 / 100) ∧
    min (if p < 1 then 1 - p else 0) (99 / 100) ≤ 99 / 100 := by
  by_cases h : p < 1
  · rw [if_pos h, if_pos h]
    exact ⟨rfl, le_min (by linarith) (by norm_num), min_le_right _ _⟩
  · rw [if_neg h, if_neg h]
    exact ⟨min_eq_left (by norm_num), le_min le_rfl (by norm_num), min_le_right _ _⟩

/-! ### Claims -/

/-- C5: `filter_outliers(threshold)` returns `true` exactly when the AR series
has at least 3 observations, its MAD is nonzero, and the stored event-day AR
deviates from the series median by more than `threshold * MAD`; with fewer than
3 observations or zero MAD it returns `false`. -/
theorem C5_filter_outliers_iff (s : List (ℤ × ℚ)) (ar t : ℚ) :
    filter_outliers s (some ar) t = true ↔
      3 ≤ s.length ∧ madOf (s.map Prod.snd) ≠ 0 ∧
        t * madOf (s.map Prod.snd) < |ar - median (s.map Prod.snd)| := by
  simp only [filter_outliers, madOf]
  by_cases h3 : s.length < 3
  · rw [if_pos h3]
    simp only [Bool.false_eq_true, false_iff]
    rintro ⟨h, -, -⟩
    omega
  · rw [if_neg h3]
    by_cases hm : median ((s.map Prod.snd).map fun x => |x - median (s.map Prod.snd)|) = 0
    · rw [if_pos hm]
      simp only [Bool.false_eq_true, false_iff]
      rintro ⟨-, h, -⟩
      exact h hm
    · rw [if_neg hm]
      simp only [decide_eq_true_eq]
      exact ⟨fun h => ⟨Nat.not_lt.mp h3, hm, h⟩, fun h => h.2.2⟩

/-- C6: `calculate_car` with no sub-window is the sum of all values of the AR
series, and with a `(days_before, days_after)` sub-window it is the sum of the
values whose dates lie in `[event_date - days_before, event_date + days_after]`. -/
theorem C6_calculate_car_sum (e : ℤ) (s : List (ℤ × ℚ)) :
    calculate_car e s none = (s.map Prod.snd).sum ∧
      ∀ b a : ℕ, calculate_car e s (some (b, a)) =
        ((s.filter fun p => decide (e - (b : ℤ) ≤ p.1 ∧ p.1 ≤ e + (a : ℤ))).map Prod.snd).sum := by
  refine ⟨rfl, fun b a => ?_⟩
  simp only [calculate_car, Bool.decide_and]

/-- C10: in both robust and standard mode (and on the degenerate empty-series
path) the confidence returned by `statistical_test` is
`min(1 - p_value, 0.99)` when `p_value < 1` and `0` otherwise, hence always
lies in `[0, 0.99]`. -/
theorem C10_confidence_bounds (tcdf : ℚ → ℕ → ℚ) (ttest1samp : List ℚ → ℚ × ℚ)
    (sqrtN : ℚ) (vals : List ℚ) (useRobust : Bool) :
    (statistical_test tcdf ttest1samp sqrtN vals useRobust).confidence =
      (if (statistical_test tcdf ttest1samp sqrtN vals useRobust).p_value < 1 then
        min (1 - (statistical_test tcdf ttest1samp sqrtN vals useRobust).p_value) (99 / 100)
       else 0) ∧
    0 ≤ (statistical_test tcdf ttest1samp sqrtN vals useRobust).confidence ∧
    (statistical_test tcdf ttest1samp sqrtN vals useRobust).confidence ≤ 99 / 100 := by
  unfold statistical_test
  by_cases h0 : vals.length = 0
  · rw [if_pos h0]
    norm_num
  · rw [if_neg h0]
    cases useRobust
    · simp only [Bool.false_eq_true, if_neg (Bool.false_ne_true)]
      exact confidence_clamp _
    · simp only [if_pos rfl]
      exact confidence_clamp _

/-- C1: whenever the MAD of the abnormal-return series is exactly zero, the
robust `statistical_test` returns `t_statistic = 0`, `p_value = 1`,
`is_significant = false`, `confidence = 0` (no division by zero); the
hypothesis on `tcdf` is the symmetry of the Student-t CDF at zero
(`tcdf 0 df = 1/2`), the only fact about `scipy.stats.t.cdf` the claim uses. -/
theorem C1_mad_zero_degenerate (tcdf : ℚ → ℕ → ℚ) (ttest1samp : List ℚ → ℚ × ℚ)
    (sqrtN : ℚ) (vals : List ℚ)
    (hmad : madOf vals = 0) (htc : tcdf 0 (vals.length - 1) = 1 / 2) :
    (statistical_test tcdf ttest1samp sqrtN vals true).t_statistic = 0 ∧
    (statistical_test tcdf ttest1samp sqrtN vals true).p_value = 1 ∧
    (statistical_test tcdf ttest1samp sqrtN vals true).is_significant = false ∧
    (statistical_test tcdf ttest1samp sqrtN vals true).confidence = 0 := by
  have hmad' : median (vals.map fun x => |x - median vals|) = 0 := by
    simpa [madOf] using hmad
  unfold statistical_test
  by_cases h0 : vals.length = 0
  · rw [if_pos h0]
    exact ⟨rfl, rfl, rfl, rfl⟩
  · rw [if_neg h0]
    norm_num [hmad', htc, SIGNIFICANCE_LEVEL]

/-- C1 witness: the all-zero series of length 4 satisfies the hypotheses and
yields the degenerate statistic. -/
theorem C1_witness :
    madOf [0, 0, 0, 0] = 0 ∧
    (statistical_test (fun _ _ => 1 / 2) (fun _ => (0, 1)) 2 [0, 0, 0, 0] true).t_statistic = 0 ∧
    (statistical_test (fun _ _ => 1 / 2) (fun _ => (0, 1)) 2 [0, 0, 0, 0] true).p_value = 1 ∧
    (statistical_test (fun _ _ => 1 / 2) (fun _ => (0, 1)) 2 [0, 0, 0, 0] true).is_significant = false ∧
    (statistical_test (fun _ _ => 1 / 2) (fun _ => (0, 1)) 2 [0, 0, 0, 0] true).confidence = 0 := by
  have h1 : madOf ([0, 0, 0, 0] : List ℚ) = 0 := by
    norm_num [madOf, median, List.insertionSort, List.orderedInsert, abs_of_nonneg,
      abs_of_nonpos]
  have h2 := C1_mad_zero_degenerate (fun _ _ => 1 / 2) (fun _ => (0, 1)) 2 [0, 0, 0, 0] h1 rfl
  exact ⟨h1, h2.1, h2.2.1, h2.2.2.1, h2.2.2.2⟩

/-- C2: on a non-empty series with positive MAD, the robust `statistical_test`
returns the statistic `median / (1.4826 * MAD / sqrt n)` and the two-sided
p-value `2 * (1 - tcdf(|t|, n - 1))` from the Student-t CDF with `n - 1`
degrees of freedom. -/
theorem C2_robust_statistic (tcdf : ℚ → ℕ → ℚ) (ttest1samp : List ℚ → ℚ × ℚ)
    (sqrtN : ℚ) (vals : List ℚ) (h0 : vals ≠ []) (hmad : 0 < madOf vals) :
    (statistical_test tcdf ttest1samp sqrtN vals true).t_statistic =
      median vals / (14826 / 10000 * madOf vals / sqrtN) ∧
    (statistical_test tcdf ttest1samp sqrtN vals true).p_value =
      2 * (1 - tcdf |median vals / (14826 / 10000 * madOf vals / sqrtN)| (vals.length - 1)) := by
  have hlen : ¬vals.length = 0 := by simpa [List.length_eq_zero] using h0
  have hmad' : 0 < median (vals.map fun x => |x - median vals|) := by
    simpa [madOf] using hmad
  unfold statistical_test
  rw [if_neg hlen]
  norm_num [hmad', madOf]

/-- C2 witness: a concrete 4-point series with positive MAD, `sqrt 4 = 2`. -/
theorem C2_witness :
    ([1 / 100, 2 / 100, 3 / 100, 4 / 100] : List ℚ) ≠ [] ∧
    0 < madOf [1 / 100, 2 / 100, 3 / 100, 4 / 100] ∧
    (statistical_test (fun _ _ => 9 / 10) (fun _ => (0, 1)) 2
        [1 / 100, 2 / 100, 3 / 100, 4 / 100] true).t_statistic =
      median [1 / 100, 2 / 100, 3 / 100, 4 / 100] /
        (14826 / 10000 * madOf [1 / 100, 2 / 100, 3 / 100, 4 / 100] / 2) ∧
    (statistical_test (fun _ _ => 9 / 10) (fun _ => (0, 1)) 2
        [1 / 100, 2 / 100, 3 / 100, 4 / 100] true).p_value =
      2 * (1 - 9 / 10) := by
  have hne : ([1 / 100, 2 / 100, 3 / 100, 4 / 100] : List ℚ) ≠ [] := by
    intro h
    exact absurd (congrArg List.length h) (by norm_num)
  have hmad : 0 < madOf [1 / 100, 2 / 100, 3 / 100, 4 / 100] := by
    norm_num [madOf, median, List.insertionSort, List.orderedInsert, abs_of_nonneg,
      abs_of_nonpos]
  have h2 := C2_robust_statistic (fun _ _ => 9 / 10) (fun _ => (0, 1)) 2
    [1 / 100, 2 / 100, 3 / 100, 4 / 100] hne hmad
  exact ⟨hne, hmad, h2.1, h2.2⟩

theorem eventDayARfirst_eq_none (e : ℤ) (s : List (ℤ × ℚ)) (h : ∀ p ∈ s, p.1 < e) :
    eventDayARfirst e s = none := by
  induction s with
  | nil => rfl
  | cons p rest ih =>
    have hp : p.1 < e := h p (List.mem_cons_self _ _)
    simp only [eventDayARfirst]
    rw [if_neg (not_le.mpr hp)]
    exact ih fun q hq => h q (List.mem_cons_of_mem _ hq)

theorem eventDayARfirst_first (e : ℤ) (s₁ : List (ℤ × ℚ)) (p : ℤ × ℚ) (s₂ : List (ℤ × ℚ))
    (h₁ : ∀ q ∈ s₁, q.1 < e) (hp : e ≤ p.1) :
    eventDayARfirst e (s₁ ++ p :: s₂) = some p.2 := by
  induction s₁ with
  | nil => simp only [List.nil_append, eventDayARfirst, if_pos hp]
  | cons q rest ih =>
    have hq : q.1 < e := h₁ q (List.mem_cons_self _ _)
    simp only [List.cons_append, eventDayARfirst]
    rw [if_neg (not_le.mpr hq)]
    exact ih fun r hr => h₁ r (List.mem_cons_of_mem _ hr)

/-- C4: the event-day AR stored by `calculate_ar` is the AR of the first date
in the series on or after the event date (the first element after a prefix of
strictly-earlier dates); when every date is before the event date it is the
arithmetic mean of the whole series. -/
theorem C4_event_day_ar (e : ℤ) (s : List (ℤ × ℚ)) (_hs : s ≠ []) :
    ((∀ p ∈ s, p.1 < e) → storedAR e s = listMean (s.map Prod.snd)) ∧
    (∀ s₁ p s₂, s = s₁ ++ p :: s₂ → (∀ q ∈ s₁, q.1 < e) → e ≤ p.1 →
      storedAR e s = p.2) := by
  constructor
  · intro h
    rw [storedAR, eventDayARfirst_eq_none e s h]
    rfl
  · rintro s₁ p s₂ rfl h₁ hp
    rw [storedAR, eventDayARfirst_first e s₁ p s₂ h₁ hp]
    rfl

/-- C4 witness: in the series `[(5, 7), (10, 9)]` with event date 10, the
stored AR is the value at date 10 (the first date on or after the event). -/
theorem C4_witness :
    ([((5 : ℤ), (7 : ℚ)), (10, 9)] : List (ℤ × ℚ)) ≠ [] ∧
    storedAR 10 [((5 : ℤ), (7 : ℚ)), (10, 9)] = 9 := by
  have hne : ([((5 : ℤ), (7 : ℚ)), (10, 9)] : List (ℤ × ℚ)) ≠ [] := by simp
  refine ⟨hne, (C4_event_day_ar 10 _ hne).2 [(5, 7)] (10, 9) [] rfl ?_ ?_⟩
  · intro q hq
    rw [List.mem_singleton] at hq
    subst hq
    norm_num
  · norm_num

/-- C7 counterexample: at `estimation_window_days = 0` with two pre-boundary
rows, Python's `iloc[-0:]` keeps the whole filtered subsequence, so the sample
handed to the OLS fit has 2 observations — more than the claimed bound of at
most `estimation_window_days = 0`. -/
theorem C7_counterexample :
    estimationSample [⟨1, 1, 2⟩, ⟨2, 3, 4⟩] 10 3 0 = [⟨1, 1, 2⟩, ⟨2, 3, 4⟩] ∧
    ¬(estimationSample [⟨1, 1, 2⟩, ⟨2, 3, 4⟩] 10 3 0).length ≤ 0 := by
  constructor
  · simp [estimationSample]
  · simp [estimationSample]

/-- C7 (amended): `estimate_expected_return` hands the OLS fit exactly the
estimation sample; every observation in that sample has date strictly before
`event_date - event_window_days`, and the sample is a suffix (the most recent
part) of the strictly-before-boundary subsequence; whenever
`estimation_window_days` is positive the sample has at most
`estimation_window_days` observations (at `estimation_window_days = 0` the
`iloc[-0:]` slice keeps the whole pre-boundary subsequence instead). -/
theorem C7_estimation_window_amended (ols : List Row → Except String (ℚ × ℚ))
    (rows : List Row) (e : ℤ) (w N : ℕ) :
    estimate_expected_return ols rows e w N = ols (estimationSample rows e w N) ∧
    (∀ r ∈ estimationSample rows e w N, r.date < e - (w : ℤ)) ∧
    (0 < N → (estimationSample rows e w N).length ≤ N) ∧
    (estimationSample rows e w N) <:+ (rows.filter fun r => decide (r.date < e - (w : ℤ))) := by
  have hsub : ∀ r ∈ estimationSample rows e w N,
      r ∈ rows.filter fun r => decide (r.date < e - (w : ℤ)) := by
    intro r hr
    simp only [estimationSample] at hr
    by_cases h : N < (rows.filter fun r => decide (r.date < e - (w : ℤ))).length
    · rw [if_pos h] at hr
      by_cases h0 : N = 0
      · rwa [if_pos h0] at hr
      · rw [if_neg h0] at hr
        exact List.drop_subset _ _ hr
    · rwa [if_neg h] at hr
  refine ⟨rfl, ?_, ?_, ?_⟩
  · intro r hr
    exact of_decide_eq_true (List.mem_filter.mp (hsub r hr)).2
  · intro hN
    simp only [estimationSample]
    by_cases h : N < (rows.filter fun r => decide (r.date < e - (w : ℤ))).length
    · rw [if_pos h, if_neg (Nat.pos_iff_ne_zero.mp hN), List.length_drop,
        Nat.sub_sub_self (Nat.le_of_lt h)]
    · rw [if_neg h]
      exact Nat.not_lt.mp h
  · simp only [estimationSample]
    by_cases h : N < (rows.filter fun r => decide (r.date < e - (w : ℤ))).length
    · rw [if_pos h]
      by_cases h0 : N = 0
      · rw [if_pos h0]
      · rw [if_neg h0]
        exact List.drop_suffix _ _
    · rw [if_neg h]

/-- C7 witness: with three rows, event date 10, window 3 and a one-day
estimation budget, the selected sample is within the boundary and within the
budget, witnessed at the concrete member `(2, 3, 4)`. -/
theorem C7_witness :
    (⟨2, 3, 4⟩ : Row) ∈ estimationSample [⟨1, 1, 2⟩, ⟨2, 3, 4⟩, ⟨9, 5, 6⟩] 10 3 1 ∧
    (2 : ℤ) < 10 - (3 : ℕ) ∧
    (estimationSample [⟨1, 1, 2⟩, ⟨2, 3, 4⟩, ⟨9, 5, 6⟩] 10 3 1).length ≤ 1 := by
  have h := C7_estimation_window_amended (fun _ => Except.ok (0, 0))
    [⟨1, 1, 2⟩, ⟨2, 3, 4⟩, ⟨9, 5, 6⟩] 10 3 1
  have hm : (⟨2, 3, 4⟩ : Row) ∈ estimationSample [⟨1, 1, 2⟩, ⟨2, 3, 4⟩, ⟨9, 5, 6⟩] 10 3 1 := by
    simp [estimationSample]
  exact ⟨hm, h.2.1 ⟨2, 3, 4⟩ hm, h.2.2.1 (by norm_num)⟩

/-- C3: on every failed stage — `fetch_data` returning false, the OLS fit
raising, or an empty event-window intersection — `run_full_analysis` returns
the structured error dictionary with a non-empty message, `ar = 0`, `car = 0`,
`confidence = 0` and `is_significant = false` (being a total function, it
propagates no exception). -/
theorem C3_error_paths (ticker : String) (fetched : Option (List Row))
    (ols : List Row → Except String (ℚ × ℚ)) (tcdf : ℚ → ℕ → ℚ)
    (ttest1samp : List ℚ → ℚ × ℚ) (sqrtN : ℚ) (e : ℤ) (w N : ℕ)
    (h : fetched = none ∨
      (∃ rows msg, fetched = some rows ∧
        estimate_expected_return ols rows e w N = Except.error msg) ∨
      (∃ rows a b, fetched = some rows ∧
        estimate_expected_return ols rows e w N = Except.ok (a, b) ∧
        arSeries a b rows e w = [])) :
    ∃ msg, run_full_analysis ticker fetched ols tcdf ttest1samp sqrtN e w N =
      ResultDict.err ticker msg 0 0 0 false ∧ msg ≠ "" := by
  rcases h with rfl | ⟨rows, msg, rfl, hest⟩ | ⟨rows, a, b, rfl, hest, hemp⟩
  · exact ⟨"Failed to fetch data", rfl, by decide⟩
  · refine ⟨"Analysis failed: " ++ msg, ?_, ?_⟩
    · simp only [run_full_analysis, hest, errResult]
    · intro hc
      have hd : ("Analysis failed: ").data ++ msg.data = [] := by
        have h2 := congrArg String.data hc
        rw [String.data_append] at h2
        exact h2
      exact absurd (List.append_eq_nil.mp hd).1 (by decide)
  · refine ⟨"No data in event window", ?_, by decide⟩
    simp only [run_full_analysis, hest, hemp, errResult, List.length_nil]
    rw [if_pos trivial]

/-- C3 witness: a failed data fetch produces the structured error result. -/
theorem C3_witness :
    ∃ msg, run_full_analysis "AAPL" none (fun _ => Except.ok (0, 0)) (fun _ _ => 1 / 2)
        (fun _ => (0, 1)) 1 0 3 252 = ResultDict.err "AAPL" msg 0 0 0 false ∧ msg ≠ "" :=
  C3_error_paths "AAPL" none (fun _ => Except.ok (0, 0)) (fun _ _ => 1 / 2)
    (fun _ => (0, 1)) 1 0 3 252 (Or.inl rfl)

/-- C9: when the stored event-day AR is exactly zero on a successful run, the
assembled result's `direction` is `"neutral"` while `_generate_summary`
classifies the same value as negative, so the summary text begins with
`"Negative"`. -/
theorem C9_neutral_direction_negative_summary (ticker : String) (rows : List Row)
    (ols : List Row → Except String (ℚ × ℚ)) (tcdf : ℚ → ℕ → ℚ)
    (ttest1samp : List ℚ → ℚ × ℚ) (sqrtN : ℚ) (e : ℤ) (w N : ℕ) (a b : ℚ)
    (hest : estimate_expected_return ols rows e w N = Except.ok (a, b))
    (hne : arSeries a b rows e w ≠ [])
    (har : storedAR e (arSeries a b rows e w) = 0) :
    ∃ f, run_full_analysis ticker (some rows) ols tcdf ttest1samp sqrtN e w N =
        ResultDict.ok f ∧
      f.direction = "neutral" ∧ ∃ rest, f.summary = "Negative" ++ rest := by
  have hlen : ¬(arSeries a b rows e w).length = 0 := by
    simpa [List.length_eq_zero] using hne
  simp only [run_full_analysis, hest]
  rw [if_neg hlen]
  refine ⟨_, rfl, ?_, ?_⟩
  · show (if 0 < storedAR e (arSeries a b rows e w) then "positive"
      else if storedAR e (arSeries a b rows e w) < 0 then "negative" else "neutral") = "neutral"
    rw [har]
    norm_num
  · show ∃ rest, generate_summary (some (storedAR e (arSeries a b rows e w)))
      (some (statistical_test tcdf ttest1samp sqrtN
        (List.map Prod.snd (arSeries a b rows e w)) true).p_value)
      (filter_outliers (arSeries a b rows e w) (some (storedAR e (arSeries a b rows e w))) 3) =
      "Negative" ++ rest
    rw [har]
    simp only [generate_summary]
    rw [if_neg (lt_irrefl (0 : ℚ))]
    have hcap : capitalizeStr "negative" = "Negative" := by decide
    rw [hcap]
    cases hfo : filter_outliers (arSeries a b rows e w) (some 0) 3
    · rw [if_neg (by simp)]
      simp only [String.append_assoc]
      exact ⟨_, rfl⟩
    · rw [if_pos rfl]
      simp only [String.append_assoc]
      exact ⟨_, rfl⟩

/-- C9 witness: a one-row series whose event-day AR is exactly zero yields
`direction = "neutral"` and a summary starting with `"Negative"`. -/
theorem C9_witness :
    estimate_expected_return (fun _ => Except.ok (0, 1)) [⟨10, 2 / 100, 2 / 100⟩] 10 3 252 =
        Except.ok (0, 1) ∧
    storedAR 10 (arSeries 0 1 [⟨10, 2 / 100, 2 / 100⟩] 10 3) = 0 ∧
    ∃ f, run_full_analysis "KO" (some [⟨10, 2 / 100, 2 / 100⟩]) (fun _ => Except.ok (0, 1))
        (fun _ _ => 1 / 2) (fun _ => (0, 1)) 1 10 3 252 = ResultDict.ok f ∧
      f.direction = "neutral" ∧ ∃ rest, f.summary = "Negative" ++ rest := by
  have hne : arSeries 0 1 [⟨10, 2 / 100, 2 / 100⟩] 10 3 ≠ [] := by
    simp [arSeries, eventWindowRows]
  have har : storedAR 10 (arSeries 0 1 [⟨10, 2 / 100, 2 / 100⟩] 10 3) = 0 := by
    norm_num [storedAR, arSeries, eventWindowRows, eventDayARfirst, List.filter]
  exact ⟨rfl, har,
    C9_neutral_direction_negative_summary "KO" [⟨10, 2 / 100, 2 / 100⟩]
      (fun _ => Except.ok (0, 1)) (fun _ _ => 1 / 2) (fun _ => (0, 1)) 1 10 3 252 0 1
      rfl hne har⟩

/-- C8 (amended): in every successful result, `alpha`, `ar`, `car` are rounded
to 6 decimal places, `beta` to 4, `ar_percentage` and `car_percentage` to 4,
and `confidence` to 3 — while `p_value` is passed through from
`statistical_test` unrounded. -/
theorem C8_amended_rounding (ticker : String) (rows : List Row)
    (ols : List Row → Except String (ℚ × ℚ)) (tcdf : ℚ → ℕ → ℚ)
    (ttest1samp : List ℚ → ℚ × ℚ) (sqrtN : ℚ) (e : ℤ) (w N : ℕ) (a b : ℚ)
    (hest : estimate_expected_return ols rows e w N = Except.ok (a, b))
    (hne : arSeries a b rows e w ≠ []) :
    ∃ f, run_full_analysis ticker (some rows) ols tcdf ttest1samp sqrtN e w N =
        ResultDict.ok f ∧
      f.alpha = pyRound 6 a ∧
      f.beta = pyRound 4 b ∧
      f.ar = pyRound 6 (storedAR e (arSeries a b rows e w)) ∧
      f.ar_percentage = pyRound 4 (storedAR e (arSeries a b rows e w) * 100) ∧
      f.car = pyRound 6 (calculate_car e (arSeries a b rows e w) none) ∧
      f.car_percentage = pyRound 4 (calculate_car e (arSeries a b rows e w) none * 100) ∧
      f.confidence = pyRound 3 (statistical_test tcdf ttest1samp sqrtN
        (List.map Prod.snd (arSeries a b rows e w)) true).confidence ∧
      f.p_value = (statistical_test tcdf ttest1samp sqrtN
        (List.map Prod.snd (arSeries a b rows e w)) true).p_value := by
  have hlen : ¬(arSeries a b rows e w).length = 0 := by
    simpa [List.length_eq_zero] using hne
  simp only [run_full_analysis, hest]
  rw [if_neg hlen]
  exact ⟨_, rfl, rfl, rfl, rfl, rfl, rfl, rfl, rfl, rfl⟩

/-- C8 witness: a concrete one-row run in which every rounded field is the
rounding of its raw pipeline value and `p_value` is the raw test p-value. -/
theorem C8_witness :
    arSeries (1 / 2) 2 [⟨10, 3 / 100, 0⟩] 10 3 ≠ [] ∧
    (∃ f, run_full_analysis "PEP" (some [⟨10, 3 / 100, 0⟩]) (fun _ => Except.ok (1 / 2, 2))
        (fun _ _ => 1 / 4) (fun _ => (0, 1)) 1 10 3 252 = ResultDict.ok f ∧
      f.alpha = pyRound 6 (1 / 2) ∧
      f.beta = pyRound 4 2 ∧
      f.ar = pyRound 6 (storedAR 10 (arSeries (1 / 2) 2 [⟨10, 3 / 100, 0⟩] 10 3)) ∧
      f.ar_percentage =
        pyRound 4 (storedAR 10 (arSeries (1 / 2) 2 [⟨10, 3 / 100, 0⟩] 10 3) * 100) ∧
      f.car = pyRound 6 (calculate_car 10 (arSeries (1 / 2) 2 [⟨10, 3 / 100, 0⟩] 10 3) none) ∧
      f.car_percentage =
        pyRound 4 (calculate_car 10 (arSeries (1 / 2) 2 [⟨10, 3 / 100, 0⟩] 10 3) none * 100) ∧
      f.confidence = pyRound 3 (statistical_test (fun _ _ => 1 / 4) (fun _ => (0, 1)) 1
        (List.map Prod.snd (arSeries (1 / 2) 2 [⟨10, 3 / 100, 0⟩] 10 3)) true).confidence ∧
      f.p_value = (statistical_test (fun _ _ => 1 / 4) (fun _ => (0, 1)) 1
        (List.map Prod.snd (arSeries (1 / 2) 2 [⟨10, 3 / 100, 0⟩] 10 3)) true).p_value) := by
  have hne : arSeries (1 / 2) 2 [⟨10, 3 / 100, 0⟩] 10 3 ≠ [] := by
    simp [arSeries, eventWindowRows]
  exact ⟨hne, C8_amended_rounding "PEP" [⟨10, 3 / 100, 0⟩] (fun _ => Except.ok (1 / 2, 2))
    (fun _ _ => 1 / 4) (fun _ => (0, 1)) 1 10 3 252 (1 / 2) 2 rfl hne⟩

/-- C8 counterexample: a successful run whose returned `p_value` (0.1235) is
not equal to its own 3-decimal rounding (0.124) — the result's `p_value` is
not rounded to 3 decimal places as claimed. -/
theorem C8_counterexample :
    (run_full_analysis "BA" (some [⟨8, 1 / 100, 0⟩, ⟨10, 3 / 100, 0⟩])
        (fun _ => Except.ok (0, 0)) (fun _ _ => 93825 / 100000) (fun _ => (0, 1))
        1 10 3 252).pvalue = some (247 / 2000) ∧
    pyRound 3 (247 / 2000) = 124 / 1000 ∧
    (247 / 2000 : ℚ) ≠ 124 / 1000 := by
  refine ⟨?_, by norm_num [pyRound, roundHalfEven], by norm_num⟩
  norm_num [run_full_analysis, estimate_expected_return, estimationSample, arSeries,
    eventWindowRows, storedAR, eventDayARfirst, listMean, calculate_car, statistical_test,
    median, madOf, List.insertionSort, List.orderedInsert, abs_of_nonneg, abs_of_nonpos,
    SIGNIFICANCE_LEVEL, ResultDict.pvalue, errResult]
